import Mathlib

/-
Verification of the ocpp-charger-sim core against its specification.

The data model follows the spec (§3, §4) and the frontend sources:
the EVSE transition table and the Faulted error-code list are embedded
from the InjectStatusPanel component; the backend components (EVSE state
machine, Meter Engine, Config Store, connection handlers, Scenario
Engine) are modelled from the spec, as their source is not in the tree.
-/

namespace OcppSim

/-- The 8 EVSE states of spec §4.2, the keys of `VALID_TRANSITIONS` in the
InjectStatusPanel component. -/
inductive EvseState where
  | Available
  | Preparing
  | Charging
  | SuspendedEV
  | SuspendedEVSE
  | Finishing
  | Faulted
  | Unavailable
deriving DecidableEq, Fintype, Repr

/-- Embedded from the InjectStatusPanel component: valid OCPP 1.6 state
transitions per connector (`VALID_TRANSITIONS`). -/
def VALID_TRANSITIONS : EvseState → List EvseState
  | .Available => [.Preparing, .Unavailable]
  | .Preparing => [.Charging, .Available, .Faulted, .Unavailable]
  | .Charging => [.Finishing, .SuspendedEV, .SuspendedEVSE, .Faulted, .Unavailable]
  | .SuspendedEV => [.Charging, .Finishing, .Faulted, .Unavailable]
  | .SuspendedEVSE => [.Charging, .Finishing, .Faulted, .Unavailable]
  | .Finishing => [.Available, .Faulted, .Unavailable]
  | .Faulted => [.Available, .Unavailable]
  | .Unavailable => [.Available]

/-- The §4.2 transition table exactly as the spec enumerates it, written as a
decidable relation for comparison with the code table. -/
def sectionFourTwoAllowed : EvseState → EvseState → Bool
  | .Available, .Preparing => true
  | .Available, .Unavailable => true
  | .Preparing, .Charging => true
  | .Preparing, .Available => true
  | .Preparing, .Faulted => true
  | .Preparing, .Unavailable => true
  | .Charging, .Finishing => true
  | .Charging, .SuspendedEV => true
  | .Charging, .SuspendedEVSE => true
  | .Charging, .Faulted => true
  | .Charging, .Unavailable => true
  | .SuspendedEV, .Charging => true
  | .SuspendedEV, .Finishing => true
  | .SuspendedEV, .Faulted => true
  | .SuspendedEV, .Unavailable => true
  | .SuspendedEVSE, .Charging => true
  | .SuspendedEVSE, .Finishing => true
  | .SuspendedEVSE, .Faulted => true
  | .SuspendedEVSE, .Unavailable => true
  | .Finishing, .Available => true
  | .Finishing, .Faulted => true
  | .Finishing, .Unavailable => true
  | .Faulted, .Available => true
  | .Faulted, .Unavailable => true
  | .Unavailable, .Available => true
  | _, _ => false

/-- The error signalled to the caller when a transition is refused. -/
inductive TransitionError where
  | InvalidTransition
deriving DecidableEq, Repr

/-- Meter state of one EVSE (spec §3): energy (Wh), power (W), voltage (V),
current (A), state of charge (percent), and the applied power limit from a
charging profile, if any. -/
structure MeterState where
  energy_Wh : ℚ
  power_W : ℚ
  voltage_V : ℚ
  current_A : ℚ
  soc : ℚ
  limit_W : Option ℚ
deriving DecidableEq, Repr

/-- One connector of a charger (spec §3): numeric connector id, current state,
optional active transaction id, optional session id-tag, and meter state. -/
structure Evse where
  evse_id : Nat
  state : EvseState
  transaction_id : Option Nat
  id_tag : Option String
  meter : MeterState
deriving DecidableEq, Repr

/-- Modelled from the spec: the backend EVSE state-machine transition (§4.2),
whose source is not in the tree. A requested transition is accepted exactly
when the target appears in the transition table for the current state; an
accepted transition updates the state and emits a StatusNotification for the
new state, a refused one returns the EVSE unchanged together with an
InvalidTransition error and emits nothing. The table is the embedded
`VALID_TRANSITIONS`. -/
def transition (e : Evse) (target : EvseState) :
    Evse × Option EvseState × Option TransitionError :=
  if target ∈ VALID_TRANSITIONS e.state then
    ({ e with state := target }, some target, none)
  else
    (e, none, some TransitionError.InvalidTransition)

theorem mem_VALID_TRANSITIONS_iff (s t : EvseState) :
    t ∈ VALID_TRANSITIONS s ↔ sectionFourTwoAllowed s t = true := by
  revert s t; decide

/-- C1: a requested transition from `from` to `to` succeeds iff `to` is listed
for `from` in the §4.2 transition table; every pair not in the table leaves
the EVSE state unchanged (the whole EVSE is returned untouched) and signals
an InvalidTransition error to the caller; a StatusNotification is emitted
only on accepted transitions. -/
theorem C1_transition_iff_table (e : Evse) (t : EvseState) :
    ((transition e t).2.2 = none ↔ sectionFourTwoAllowed e.state t = true) ∧
    (sectionFourTwoAllowed e.state t = true →
      transition e t = ({ e with state := t }, some t, none)) ∧
    (sectionFourTwoAllowed e.state t = false →
      transition e t = (e, none, some TransitionError.InvalidTransition)) := by
  have hmem := mem_VALID_TRANSITIONS_iff e.state t
  by_cases h : t ∈ VALID_TRANSITIONS e.state
  · refine ⟨?_, ?_, ?_⟩
    · simp [transition, h, hmem.mp h]
    · intro _; simp [transition, h]
    · intro hfalse
      rw [hmem.mp h] at hfalse
      exact absurd hfalse (by simp)
  · have hnot : sectionFourTwoAllowed e.state t = false := by
      rcases Bool.eq_false_or_eq_true (sectionFourTwoAllowed e.state t) with ht | hf
      · exact absurd (hmem.mpr ht) h
      · exact hf
    refine ⟨?_, ?_, ?_⟩
    · simp [transition, h, hnot]
    · intro htrue
      rw [hnot] at htrue
      exact absurd htrue (by simp)
    · intro _; simp [transition, h]

/-- Modelled from the spec: fixed per-session parameters of the Meter Engine
(§4.3), whose backend source is not in the tree: the EVSE maximum power (W),
the tick interval expressed in hours, the session's resolved vehicle battery
capacity (Wh), whether the charger is DC, the fixed nominal AC voltage, and
the DC open-circuit-voltage curve over SoC (kept abstract: its sigmoid shape
plays no role in the verified properties). -/
structure EngineParams where
  max_power_W : ℚ
  dt_h : ℚ
  capacity_Wh : ℚ
  isDC : Bool
  nominal_voltage_V : ℚ
  ocv : ℚ → ℚ

/-- Modelled from the spec (§4.3): effective power of an EVSE at a tick,
`state == Charging ? min(applied_limit_or_max, max_power) : 0`. -/
def effectivePower (p : EngineParams) (e : Evse) : ℚ :=
  if e.state = EvseState.Charging then
    min (e.meter.limit_W.getD p.max_power_W) p.max_power_W
  else 0

/-- One MeterValues sample: energy, power, current, and — DC only — SoC
(AC omits SoC on the wire while still tracking it internally). -/
structure MeterValuesSample where
  energy_Wh : ℚ
  power_W : ℚ
  current_A : ℚ
  soc : Option ℚ
deriving DecidableEq, Repr

/-- Result of one Meter Engine tick: the updated EVSE, the emitted
MeterValues sample, and the StatusNotification emitted if the tick itself
drove a state transition. -/
structure TickResult where
  evse : Evse
  sample : MeterValuesSample
  statusNotification : Option EvseState

/-- Modelled from the spec: one tick of the per-EVSE Meter Engine loop
(§4.3), whose backend source is not in the tree. Per tick: effective power
as above; `energy += effective_power * dt` (Wh); `current =
effective_power / voltage`; voltage fixed nominal for AC, OCV-curve value
for DC; SoC advances by the energy delta over the session's battery
capacity, clamped to [0, 100]; on reaching 100 while Charging, the engine
itself moves the EVSE to SuspendedEV and sends a StatusNotification; a
MeterValues sample is emitted carrying energy, power, current, and SoC only
for DC. -/
def tick (p : EngineParams) (e : Evse) : TickResult :=
  let pw := effectivePower p e
  let energy := e.meter.energy_Wh + pw * p.dt_h
  let soc := min 100 (max 0 (e.meter.soc + 100 * (pw * p.dt_h) / p.capacity_Wh))
  let voltage := if p.isDC then p.ocv soc else p.nominal_voltage_V
  let current := pw / voltage
  let autoSuspend : Bool := decide (e.state = EvseState.Charging ∧ soc = 100)
  { evse :=
      { e with
        state := if autoSuspend then EvseState.SuspendedEV else e.state,
        meter :=
          { e.meter with
            energy_Wh := energy, power_W := pw, voltage_V := voltage,
            current_A := current, soc := soc } },
    sample :=
      { energy_Wh := energy, power_W := pw, current_A := current,
        soc := if p.isDC then some soc else none },
    statusNotification := if autoSuspend then some EvseState.SuspendedEV else none }

/-- Modelled from the spec (§4.3): the tick loop of an EVSE keeps running
exactly while the EVSE still has an active transaction and is not Faulted or
Unavailable; a transition to SuspendedEV/SuspendedEVSE does not cancel it. -/
def loopContinues (e : Evse) : Bool :=
  match e.state with
  | .Faulted => false
  | .Unavailable => false
  | _ => e.transaction_id.isSome

/-- The EVSE after `n` consecutive Meter Engine ticks. -/
def tickIterate (p : EngineParams) (e : Evse) : Nat → Evse
  | 0 => e
  | n + 1 => tickIterate p (tick p e).evse n

theorem tick_transaction_id (p : EngineParams) (e : Evse) :
    (tick p e).evse.transaction_id = e.transaction_id := rfl

theorem tick_limit_W (p : EngineParams) (e : Evse) :
    (tick p e).evse.meter.limit_W = e.meter.limit_W := rfl

/-- C2: when an EVSE is Charging with an active transaction and the Meter
Engine computes SoC = 100% at tick N, then at tick N+1 the EVSE is in
SuspendedEV (moved by the engine itself, with a StatusNotification sent),
its effective power is 0 (so the tick N+1 sample reports 0 power and energy
stops increasing), and the tick loop is not cancelled: the transaction is
still active and the loop keeps emitting MeterValues. -/
theorem C2_soc_full_suspends (p : EngineParams) (e : Evse)
    (hc : e.state = EvseState.Charging)
    (htx : e.transaction_id.isSome = true)
    (hsoc : (tick p e).evse.meter.soc = 100) :
    (tick p e).evse.state = EvseState.SuspendedEV ∧
    (tick p e).statusNotification = some EvseState.SuspendedEV ∧
    effectivePower p (tick p e).evse = 0 ∧
    (tick p (tick p e).evse).sample.power_W = 0 ∧
    (tick p (tick p e).evse).evse.meter.energy_Wh = (tick p e).evse.meter.energy_Wh ∧
    loopContinues (tick p e).evse = true ∧
    (tick p (tick p e).evse).evse.transaction_id = e.transaction_id ∧
    loopContinues (tick p (tick p e).evse).evse = true := by
  simp only [tick] at hsoc ⊢
  simp only [hc] at hsoc ⊢
  simp only [hsoc]
  simp [effectivePower, loopContinues, htx]

/-- Sample engine parameters used by concrete witnesses. -/
def sampleParams : EngineParams where
  max_power_W := 100
  dt_h := 1
  capacity_Wh := 100
  isDC := false
  nominal_voltage_V := 230
  ocv := fun s => s

/-- Sample Charging EVSE with an active transaction, used by concrete
witnesses. One tick at `sampleParams` drives its SoC from 20 to 100. -/
def sampleChargingEvse : Evse where
  evse_id := 1
  state := EvseState.Charging
  transaction_id := some 7
  id_tag := some ("TAG-1")
  meter :=
    { energy_Wh := 40, power_W := 0, voltage_V := 230, current_A := 0,
      soc := 20, limit_W := none }

/-- Witness for C2: at `sampleParams` and `sampleChargingEvse` the tick
computes SoC = 100 and the next tick shows SuspendedEV, zero power, constant
energy and a live loop. -/
theorem C2_soc_full_suspends_witness :
    (sampleChargingEvse.state = EvseState.Charging ∧
     sampleChargingEvse.transaction_id.isSome = true ∧
     (tick sampleParams sampleChargingEvse).evse.meter.soc = 100) ∧
    ((tick sampleParams sampleChargingEvse).evse.state = EvseState.SuspendedEV ∧
     (tick sampleParams sampleChargingEvse).statusNotification = some EvseState.SuspendedEV ∧
     effectivePower sampleParams (tick sampleParams sampleChargingEvse).evse = 0 ∧
     (tick sampleParams (tick sampleParams sampleChargingEvse).evse).sample.power_W = 0 ∧
     (tick sampleParams (tick sampleParams sampleChargingEvse).evse).evse.meter.energy_Wh =
       (tick sampleParams sampleChargingEvse).evse.meter.energy_Wh ∧
     loopContinues (tick sampleParams sampleChargingEvse).evse = true ∧
     (tick sampleParams (tick sampleParams sampleChargingEvse).evse).evse.transaction_id =
       sampleChargingEvse.transaction_id ∧
     loopContinues (tick sampleParams (tick sampleParams sampleChargingEvse).evse).evse = true) := by
  have hsoc : (tick sampleParams sampleChargingEvse).evse.meter.soc = 100 := by
    simp [tick, effectivePower, sampleParams, sampleChargingEvse]
  exact ⟨⟨rfl, rfl, hsoc⟩,
    C2_soc_full_suspends sampleParams sampleChargingEvse rfl rfl hsoc⟩

/-- Modelled from the spec: the accepted path of the SetChargingProfile
handler (§4.1), whose backend source is not in the tree: the watt limit read
from the first schedule period is stored on the EVSE meter state; nothing
else of the EVSE — state, transaction, session, energy — is touched, and the
tick loop is not restarted. -/
def applyChargingProfile (L : ℚ) (e : Evse) : Evse :=
  { e with meter := { e.meter with limit_W := some L } }

theorem tickIterate_limit_W (p : EngineParams) (e : Evse) (n : Nat) :
    (tickIterate p e n).meter.limit_W = e.meter.limit_W := by
  induction n generalizing e with
  | zero => rfl
  | succ n ih =>
    rw [tickIterate, ih]
    exact tick_limit_W p e

theorem tickIterate_transaction_id (p : EngineParams) (e : Evse) (n : Nat) :
    (tickIterate p e n).transaction_id = e.transaction_id := by
  induction n generalizing e with
  | zero => rfl
  | succ n ih =>
    rw [tickIterate, ih]
    exact tick_transaction_id p e

/-- C3: applying a watt limit L via an accepted SetChargingProfile leaves the
active transaction id, the accumulated energy, the EVSE state and the loop
liveness unchanged (no loop restart, no energy reset), and at every
subsequent tick the effective power equals min(L, max_power) when the EVSE
is Charging and 0 otherwise — in particular 0 in SuspendedEV/SuspendedEVSE
regardless of the stored limit. -/
theorem C3_profile_limit (p : EngineParams) (L : ℚ) (e : Evse) (t : Nat)
    (htx : e.transaction_id = some t) :
    (applyChargingProfile L e).transaction_id = some t ∧
    (applyChargingProfile L e).meter.energy_Wh = e.meter.energy_Wh ∧
    (applyChargingProfile L e).state = e.state ∧
    loopContinues (applyChargingProfile L e) = loopContinues e ∧
    ∀ n : Nat,
      (effectivePower p (tickIterate p (applyChargingProfile L e) n) =
        if (tickIterate p (applyChargingProfile L e) n).state = EvseState.Charging
        then min L p.max_power_W else 0) ∧
      (tickIterate p (applyChargingProfile L e) n).transaction_id = some t := by
  refine ⟨htx, rfl, rfl, rfl, ?_⟩
  intro n
  constructor
  · have hl : (tickIterate p (applyChargingProfile L e) n).meter.limit_W = some L := by
      rw [tickIterate_limit_W]
      rfl
    simp [effectivePower, hl]
  · rw [tickIterate_transaction_id]
    exact htx

/-- Witness for C3 at `sampleParams`, limit 50, `sampleChargingEvse`,
looking one tick past the profile application. -/
theorem C3_profile_limit_witness :
    sampleChargingEvse.transaction_id = some 7 ∧
    (applyChargingProfile 50 sampleChargingEvse).transaction_id = some 7 ∧
    (applyChargingProfile 50 sampleChargingEvse).meter.energy_Wh =
      sampleChargingEvse.meter.energy_Wh ∧
    (effectivePower sampleParams
        (tickIterate sampleParams (applyChargingProfile 50 sampleChargingEvse) 1) =
      if (tickIterate sampleParams (applyChargingProfile 50 sampleChargingEvse) 1).state =
          EvseState.Charging
      then min 50 sampleParams.max_power_W else 0) := by
  have h := C3_profile_limit sampleParams 50 sampleChargingEvse 7 rfl
  exact ⟨rfl, h.1, h.2.1, (h.2.2.2.2 1).1⟩

theorem effectivePower_nonneg (p : EngineParams) (e : Evse)
    (hmax : 0 ≤ p.max_power_W)
    (hlim : ∀ L, e.meter.limit_W = some L → 0 ≤ L) :
    0 ≤ effectivePower p e := by
  unfold effectivePower
  split
  · cases he : e.meter.limit_W with
    | none => simp [he, hmax]
    | some L =>
      simp only [he, Option.getD_some]
      exact le_min (hlim L he) hmax
  · exact le_refl 0

theorem tickIterate_succ_last (p : EngineParams) (e : Evse) (n : Nat) :
    tickIterate p e (n + 1) = (tick p (tickIterate p e n)).evse := by
  induction n generalizing e with
  | zero => rfl
  | succ n ih =>
    rw [tickIterate, ih]
    rfl

/-- C5: within one session, the energy value at the later of two consecutive
Meter Engine ticks is at least the energy value at the earlier tick, given
the physical side conditions that the EVSE maximum power, the tick interval
and any applied limit are nonnegative. -/
theorem C5_energy_monotone (p : EngineParams) (e : Evse) (n : Nat)
    (hmax : 0 ≤ p.max_power_W) (hdt : 0 ≤ p.dt_h)
    (hlim : ∀ L, e.meter.limit_W = some L → 0 ≤ L) :
    (tickIterate p e n).meter.energy_Wh ≤ (tickIterate p e (n + 1)).meter.energy_Wh := by
  rw [tickIterate_succ_last]
  have hlim2 : ∀ L, (tickIterate p e n).meter.limit_W = some L → 0 ≤ L := by
    intro L hL
    rw [tickIterate_limit_W] at hL
    exact hlim L hL
  have hp := effectivePower_nonneg p (tickIterate p e n) hmax hlim2
  show (tickIterate p e n).meter.energy_Wh ≤
    (tickIterate p e n).meter.energy_Wh + effectivePower p (tickIterate p e n) * p.dt_h
  have := mul_nonneg hp hdt
  linarith

/-- Witness for C5 at `sampleParams` and `sampleChargingEvse`, comparing the
energy at ticks 0 and 1 of the session. -/
theorem C5_energy_monotone_witness :
    ((0 : ℚ) ≤ sampleParams.max_power_W ∧ (0 : ℚ) ≤ sampleParams.dt_h) ∧
    (tickIterate sampleParams sampleChargingEvse 0).meter.energy_Wh ≤
      (tickIterate sampleParams sampleChargingEvse 1).meter.energy_Wh := by
  refine ⟨⟨by norm_num [sampleParams], by norm_num [sampleParams]⟩, ?_⟩
  exact C5_energy_monotone sampleParams sampleChargingEvse 0
    (by norm_num [sampleParams]) (by norm_num [sampleParams])
    (fun L h => Option.noConfusion h)

/-- Declared type of a configuration key (spec §3): integer or boolean. -/
inductive ConfigType where
  | intType
  | boolType
deriving DecidableEq, Repr

/-- A typed configuration value. -/
inductive ConfigValue where
  | intVal (i : Int)
  | boolVal (b : Bool)
deriving DecidableEq, Repr

/-- The fixed, enumerated set of 7 known configuration keys with their
declared types (spec §6 and the ocpp-support configuration-keys table). -/
def knownConfigKeys : List (String × ConfigType) :=
  [("HeartbeatInterval", ConfigType.intType),
   ("ConnectionTimeOut", ConfigType.intType),
   ("MeterValuesSampleInterval", ConfigType.intType),
   ("ClockAlignedDataInterval", ConfigType.intType),
   ("AuthorizeRemoteTxRequests", ConfigType.boolType),
   ("LocalAuthListEnabled", ConfigType.boolType),
   ("OCPPAuthorizationEnabled", ConfigType.boolType)]

/-- The in-memory per-charger configuration: current value of each key,
`none` when unset. -/
def ConfigStore : Type := String → Option ConfigValue

/-- A store with no key set. -/
def emptyConfigStore : ConfigStore := fun _ => none

/-- Update of the in-memory value of one key. -/
def setConfigValue (store : ConfigStore) (key : String) (v : ConfigValue) : ConfigStore :=
  fun k => if k = key then some v else store k

/-- Modelled from the spec: boolean configuration values accept exactly the
tokens true/1/yes and false/0/no, compared case-insensitively (§4.1). -/
def parseBoolToken (s : String) : Option Bool :=
  let l := s.toLower
  if l = "true" || l = "1" || l = "yes" then some true
  else if l = "false" || l = "0" || l = "no" then some false
  else none

/-- Modelled from the spec: value parse against a key's declared type —
integer parse for int keys, the boolean tokens for bool keys (§4.1). -/
def parseConfigValue : ConfigType → String → Option ConfigValue
  | ConfigType.intType, s => (s.toInt?).map ConfigValue.intVal
  | ConfigType.boolType, s => (parseBoolToken s).map ConfigValue.boolVal

/-- Reply of the ChangeConfiguration handler. -/
inductive ConfigurationStatus where
  | Accepted
  | Rejected
  | NotSupported
deriving DecidableEq, Repr

/-- Modelled from the spec: the ChangeConfiguration handler (§4.1, §4.4),
whose backend source is not in the tree. Unknown key → NotSupported; known
key whose value fails the declared type's parse → Rejected, store
unchanged; otherwise the in-memory value is updated and Accepted is
returned immediately. Persistence is fire-and-forget: the handler receives
the eventual persistence outcome as `persistOk`, and neither the reply nor
the in-memory store depends on it. -/
def changeConfiguration (store : ConfigStore) (key value : String)
    (persistOk : Bool) : ConfigurationStatus × ConfigStore :=
  match knownConfigKeys.lookup key with
  | none => (ConfigurationStatus.NotSupported, store)
  | some ty =>
    match parseConfigValue ty value with
    | none => (ConfigurationStatus.Rejected, store)
    | some v => (ConfigurationStatus.Accepted, setConfigValue store key v)

/-- C4: ChangeConfiguration(key, value): unknown key replies NotSupported;
a known key whose value fails the declared type's parse replies Rejected
with the stored value unchanged; otherwise the in-memory value is updated
and the reply is Accepted, and the outcome — reply and store alike — is the
same whether the fire-and-forget persistence succeeds or fails. -/
theorem C4_change_configuration (store : ConfigStore) (key value : String)
    (persistOk : Bool) :
    (knownConfigKeys.lookup key = none →
      changeConfiguration store key value persistOk =
        (ConfigurationStatus.NotSupported, store)) ∧
    (∀ ty, knownConfigKeys.lookup key = some ty → parseConfigValue ty value = none →
      changeConfiguration store key value persistOk =
        (ConfigurationStatus.Rejected, store)) ∧
    (∀ ty v, knownConfigKeys.lookup key = some ty → parseConfigValue ty value = some v →
      (changeConfiguration store key value persistOk).1 = ConfigurationStatus.Accepted ∧
      (changeConfiguration store key value persistOk).2 key = some v ∧
      ∀ k, k ≠ key → (changeConfiguration store key value persistOk).2 k = store k) ∧
    (∀ ok2 : Bool,
      changeConfiguration store key value persistOk =
        changeConfiguration store key value ok2) := by
  refine ⟨?_, ?_, ?_, ?_⟩
  · intro h
    simp [changeConfiguration, h]
  · intro ty hty hparse
    simp [changeConfiguration, hty, hparse]
  · intro ty v hty hparse
    refine ⟨?_, ?_, ?_⟩
    · simp [changeConfiguration, hty, hparse]
    · simp [changeConfiguration, hty, hparse, setConfigValue]
    · intro k hk
      simp [changeConfiguration, hty, hparse, setConfigValue, hk]
  · intro ok2
    rfl

/-- Reply of the GetConfiguration handler: the matching entries and the
separate list of requested names that are not in the known-key registry. -/
structure GetConfigurationResult where
  configuration_key : List (String × ConfigValue)
  unknown_key : List String
deriving DecidableEq, Repr

/-- The names of the known configuration keys. -/
def knownKeyNames : List String := knownConfigKeys.map (fun kv => kv.1)

/-- Modelled from the spec: the GetConfiguration handler (§4.1, §4.4),
whose backend source is not in the tree. With no names it returns every
known key currently set; with names it returns the matching set entries
plus a separate `unknown_key` list holding every requested name not in the
known-key registry — an unknown name is never an error. -/
def getConfiguration (store : ConfigStore) (keys : Option (List String)) :
    GetConfigurationResult :=
  match keys with
  | none =>
    { configuration_key :=
        knownKeyNames.filterMap (fun n => (store n).map (fun v => (n, v))),
      unknown_key := [] }
  | some names =>
    { configuration_key :=
        names.filterMap (fun n =>
          if (knownConfigKeys.lookup n).isSome then (store n).map (fun v => (n, v))
          else none),
      unknown_key := names.filter (fun n => (knownConfigKeys.lookup n).isNone) }

/-- C9: GetConfiguration over a list of names returns exactly the entries of
requested known names that are currently set, and reports exactly the
requested names outside the known-key registry in `unknown_key`, never as an
error; in particular GetConfiguration(["Bogus"]) is an empty match set with
`unknown_key = ["Bogus"]` for every store. -/
theorem C9_get_configuration (store : ConfigStore) (names : List String) :
    (∀ n v, (n, v) ∈ (getConfiguration store (some names)).configuration_key ↔
      (n ∈ names ∧ (knownConfigKeys.lookup n).isSome ∧ store n = some v)) ∧
    (∀ n, n ∈ (getConfiguration store (some names)).unknown_key ↔
      (n ∈ names ∧ knownConfigKeys.lookup n = none)) ∧
    getConfiguration store (some ["Bogus"]) =
      { configuration_key := [], unknown_key := ["Bogus"] } := by
  refine ⟨?_, ?_, ?_⟩
  · intro n v
    simp only [getConfiguration, List.mem_filterMap]
    constructor
    · rintro ⟨a, ha, hf⟩
      by_cases hk : (knownConfigKeys.lookup a).isSome
      · rw [if_pos hk] at hf
        cases hs : store a with
        | none => rw [hs] at hf; simp at hf
        | some w =>
          rw [hs] at hf
          have h2 : (a, w) = (n, v) := Option.some.inj hf
          injection h2 with h3 h4
          subst h3
          subst h4
          exact ⟨ha, hk, hs⟩
      · rw [if_neg hk] at hf
        exact absurd hf (by simp)
    · rintro ⟨hn, hk, hs⟩
      exact ⟨n, hn, by rw [if_pos hk, hs]; rfl⟩
  · intro n
    simp [getConfiguration, List.mem_filter, Option.isNone_iff_eq_none]
  · simp [getConfiguration, knownConfigKeys, List.lookup]

/-- Reply status of the remote start/stop handlers. -/
inductive RemoteStartStopStatus where
  | Accepted
  | Rejected
deriving DecidableEq, Repr

/-- Outcome of the RemoteStartTransaction handler: the immediate reply, the
connector picked for the background Start sequence (when accepted), whether
a detached background Start task was spawned, and the EVSE list as the
handler itself leaves it. -/
structure RemoteStartOutcome where
  status : RemoteStartStopStatus
  chosenConnector : Option Nat
  backgroundStart : Bool
  evses : List Evse
deriving DecidableEq, Repr

/-- Modelled from the spec: target selection of RemoteStartTransaction
(§4.1): the named EVSE when connectorId is given, else the first EVSE with
no active transaction. -/
def remoteStartTarget (evses : List Evse) (connectorId : Option Nat) : Option Evse :=
  match connectorId with
  | none => evses.find? (fun e => e.transaction_id.isNone)
  | some c => evses.find? (fun e => e.evse_id == c)

/-- Modelled from the spec: the RemoteStartTransaction handler (§4.1),
whose backend source is not in the tree. No target EVSE (none available, or
the named connector unknown), or a target that already has an active
transaction → Rejected, the handler touching nothing, so no new transaction
id is assigned; otherwise Accepted immediately, with the actual Start
sequence spawned as a detached background task — the handler itself changes
no EVSE either. -/
def remoteStartTransaction (evses : List Evse) (connectorId : Option Nat)
    (_idTag : String) : RemoteStartOutcome :=
  match remoteStartTarget evses connectorId with
  | none => ⟨RemoteStartStopStatus.Rejected, none, false, evses⟩
  | some e =>
    if e.transaction_id.isSome then
      ⟨RemoteStartStopStatus.Rejected, none, false, evses⟩
    else
      ⟨RemoteStartStopStatus.Accepted, some e.evse_id, true, evses⟩

/-- C6: RemoteStartTransaction with connectorId omitted targets the first
EVSE with no active transaction; the reply is Rejected exactly when there is
no target EVSE or the target already has an active transaction, and then
the handler leaves every EVSE unchanged (no new transaction id); otherwise
the reply is Accepted with the Start sequence spawned as a detached
background task on the chosen connector. -/
theorem C6_remote_start (evses : List Evse) (connectorId : Option Nat) (idTag : String) :
    (remoteStartTarget evses none = evses.find? (fun e => e.transaction_id.isNone)) ∧
    ((remoteStartTransaction evses connectorId idTag).status =
        RemoteStartStopStatus.Rejected ↔
      (remoteStartTarget evses connectorId = none ∨
       ∃ e, remoteStartTarget evses connectorId = some e ∧
         e.transaction_id.isSome = true)) ∧
    ((remoteStartTransaction evses connectorId idTag).status =
        RemoteStartStopStatus.Rejected →
      (remoteStartTransaction evses connectorId idTag).evses = evses ∧
      (remoteStartTransaction evses connectorId idTag).chosenConnector = none ∧
      (remoteStartTransaction evses connectorId idTag).backgroundStart = false) ∧
    ((remoteStartTransaction evses connectorId idTag).status =
        RemoteStartStopStatus.Accepted →
      (remoteStartTransaction evses connectorId idTag).evses = evses ∧
      (remoteStartTransaction evses connectorId idTag).backgroundStart = true ∧
      ∃ e, remoteStartTarget evses connectorId = some e ∧ e.transaction_id = none ∧
        (remoteStartTransaction evses connectorId idTag).chosenConnector =
          some e.evse_id) := by
  refine ⟨rfl, ?_, ?_, ?_⟩
  · cases htgt : remoteStartTarget evses connectorId with
    | none => simp [remoteStartTransaction, htgt]
    | some e =>
      by_cases htx : e.transaction_id.isSome
      · simp [remoteStartTransaction, htgt, htx]
      · simp [remoteStartTransaction, htgt, htx]
  · cases htgt : remoteStartTarget evses connectorId with
    | none => simp [remoteStartTransaction, htgt]
    | some e =>
      by_cases htx : e.transaction_id.isSome
      · simp [remoteStartTransaction, htgt, htx]
      · simp [remoteStartTransaction, htgt, htx]
  · cases htgt : remoteStartTarget evses connectorId with
    | none => simp [remoteStartTransaction, htgt]
    | some e =>
      by_cases htx : e.transaction_id.isSome
      · simp [remoteStartTransaction, htgt, htx]
      · simp [remoteStartTransaction, htgt, htx]
        exact Option.not_isSome_iff_eq_none.mp htx

/-- Outcome of an outbound CSMS call as the Start sequence sees it:
Accepted, a non-Accepted reply, or a mid-flow failure (CallError, empty
response, timeout). -/
inductive CsmsCallOutcome where
  | accepted
  | rejectedByCsms
  | failed
deriving DecidableEq, Repr

/-- Result of a Start sequence: final EVSE state, StatusNotifications sent
in order, the transaction created if any, and whether the Meter Engine loop
was started. -/
structure StartSequenceResult where
  finalState : EvseState
  notifications : List EvseState
  transactionCreated : Option Nat
  meterLoopStarted : Bool
deriving DecidableEq, Repr

/-- Modelled from the spec: the Start sequence (§4.1, §7), whose backend
source is not in the tree: Preparing (with StatusNotification), then
Authorize when OCPPAuthorizationEnabled, then StartTransaction, then Meter
Engine start. A non-Accepted reply to, or mid-flow failure of, Authorize or
StartTransaction reverts the EVSE to Available, sends a StatusNotification,
and creates no transaction and starts no metering loop. -/
def startSequence (authRequired : Bool) (authOutcome startTxOutcome : CsmsCallOutcome)
    (txId : Nat) : StartSequenceResult :=
  if authRequired = true ∧ authOutcome ≠ CsmsCallOutcome.accepted then
    ⟨EvseState.Available, [EvseState.Preparing, EvseState.Available], none, false⟩
  else if startTxOutcome ≠ CsmsCallOutcome.accepted then
    ⟨EvseState.Available, [EvseState.Preparing, EvseState.Available], none, false⟩
  else
    ⟨EvseState.Charging, [EvseState.Preparing, EvseState.Charging], some txId, true⟩

/-- C7: whenever the Authorize step (when required) or the StartTransaction
step of a Start sequence is rejected or fails mid-flow, the EVSE ends
reverted to Available, a StatusNotification for Available is sent, no
transaction is created and no metering loop is started. -/
theorem C7_start_failure_reverts (authRequired : Bool)
    (authOutcome startTxOutcome : CsmsCallOutcome) (txId : Nat)
    (h : (authRequired = true ∧ authOutcome ≠ CsmsCallOutcome.accepted) ∨
         startTxOutcome ≠ CsmsCallOutcome.accepted) :
    (startSequence authRequired authOutcome startTxOutcome txId).finalState =
      EvseState.Available ∧
    EvseState.Available ∈
      (startSequence authRequired authOutcome startTxOutcome txId).notifications ∧
    (startSequence authRequired authOutcome startTxOutcome txId).transactionCreated =
      none ∧
    (startSequence authRequired authOutcome startTxOutcome txId).meterLoopStarted =
      false := by
  unfold startSequence
  rcases h with hauth | hst
  · rw [if_pos hauth]
    exact ⟨rfl, by simp, rfl, rfl⟩
  · by_cases hc : authRequired = true ∧ authOutcome ≠ CsmsCallOutcome.accepted
    · rw [if_pos hc]
      exact ⟨rfl, by simp, rfl, rfl⟩
    · rw [if_neg hc, if_pos hst]
      exact ⟨rfl, by simp, rfl, rfl⟩

/-- Witness for C7: a required Authorize that the CSMS rejects. -/
theorem C7_start_failure_reverts_witness :
    ((true = true ∧ CsmsCallOutcome.rejectedByCsms ≠ CsmsCallOutcome.accepted) ∨
      CsmsCallOutcome.accepted ≠ CsmsCallOutcome.accepted) ∧
    ((startSequence true CsmsCallOutcome.rejectedByCsms CsmsCallOutcome.accepted 1).finalState =
      EvseState.Available ∧
    EvseState.Available ∈
      (startSequence true CsmsCallOutcome.rejectedByCsms CsmsCallOutcome.accepted 1).notifications ∧
    (startSequence true CsmsCallOutcome.rejectedByCsms CsmsCallOutcome.accepted 1).transactionCreated =
      none ∧
    (startSequence true CsmsCallOutcome.rejectedByCsms CsmsCallOutcome.accepted 1).meterLoopStarted =
      false) :=
  ⟨Or.inl ⟨rfl, by decide⟩,
   C7_start_failure_reverts true CsmsCallOutcome.rejectedByCsms CsmsCallOutcome.accepted 1
     (Or.inl ⟨rfl, by decide⟩)⟩

/-- Status of a ScenarioRun (spec §3 and the frontend `ScenarioRunResponse`
shape): running, completed, or cancelled. -/
inductive ScenarioStatus where
  | running
  | completed
  | cancelled
deriving DecidableEq, Repr

/-- A ScenarioRun, following the frontend `ScenarioRunResponse` fields:
scenario type, duration, pair counters, chargers skipped because offline,
and status. -/
structure ScenarioRun where
  scenario_type : String
  duration_minutes : Nat
  total_pairs : Nat
  completed_pairs : Nat
  failed_pairs : Nat
  offline_charger_ids : List String
  status : ScenarioStatus
deriving DecidableEq, Repr

/-- A location's scenario run together with the EVSEs at the location. -/
structure LocationState where
  run : ScenarioRun
  evses : List Evse
deriving DecidableEq, Repr

/-- One scheduled plug-in of a rush-period scenario: target EVSE, the
transaction it would start, and whether the start succeeds. -/
structure PlugInJob where
  targetEvse : Nat
  txId : Nat
  succeeds : Bool
deriving DecidableEq, Repr

/-- Modelled from the spec: cancelling the running scenario of a location
(§4.5), whose backend source is not in the tree: the status is set to
cancelled; the EVSEs — in particular every session already started — are
left untouched, since cancellation stops only further scheduled plug-ins,
not active charging. -/
def cancelScenario (w : LocationState) : LocationState :=
  { w with run := { w.run with status := ScenarioStatus.cancelled } }

/-- Modelled from the spec: one scheduled plug-in checkpoint of a scenario
(§4.5, §5). Cancellation is cooperative and observed at these checkpoints,
so the job runs only while the run is still `running`: a successful plug-in
moves its target EVSE to Charging with its transaction and increments
completed_pairs, a failed one increments failed_pairs; on a run no longer
running, the checkpoint does nothing. -/
def scenarioStep (w : LocationState) (job : PlugInJob) : LocationState :=
  if w.run.status = ScenarioStatus.running then
    if job.succeeds then
      { run := { w.run with completed_pairs := w.run.completed_pairs + 1 },
        evses := w.evses.map (fun e =>
          if e.evse_id = job.targetEvse then
            { e with state := EvseState.Charging, transaction_id := some job.txId }
          else e) }
    else
      { w with run := { w.run with failed_pairs := w.run.failed_pairs + 1 } }
  else w

/-- The location state after a list of scheduled plug-in checkpoints. -/
def scenarioSteps (w : LocationState) : List PlugInJob → LocationState
  | [] => w
  | j :: js => scenarioSteps (scenarioStep w j) js

theorem scenarioSteps_of_cancelled (w : LocationState) (jobs : List PlugInJob)
    (h : w.run.status = ScenarioStatus.cancelled) :
    scenarioSteps w jobs = w := by
  induction jobs generalizing w with
  | nil => rfl
  | cons j js ih =>
    show scenarioSteps (scenarioStep w j) js = w
    have hstep : scenarioStep w j = w := by
      simp [scenarioStep, h]
    rw [hstep]
    exact ih w h

/-- C8: cancelling a running scenario sets its status to cancelled; after
that, no sequence of scheduled plug-in checkpoints changes completed_pairs
(it never increases again) or resets the status, and the EVSEs are exactly
as before the cancellation — every session already started (an EVSE in
Charging) remains Charging. -/
theorem C8_cancel_scenario (w : LocationState) (jobs : List PlugInJob)
    (hrun : w.run.status = ScenarioStatus.running) :
    (cancelScenario w).run.status = ScenarioStatus.cancelled ∧
    (scenarioSteps (cancelScenario w) jobs).run.status = ScenarioStatus.cancelled ∧
    (scenarioSteps (cancelScenario w) jobs).run.completed_pairs =
      w.run.completed_pairs ∧
    (scenarioSteps (cancelScenario w) jobs).evses = w.evses ∧
    ∀ e ∈ w.evses, e.state = EvseState.Charging →
      e ∈ (scenarioSteps (cancelScenario w) jobs).evses := by
  have hid : scenarioSteps (cancelScenario w) jobs = cancelScenario w :=
    scenarioSteps_of_cancelled (cancelScenario w) jobs rfl
  rw [hid]
  exact ⟨rfl, rfl, rfl, rfl, fun e he _ => he⟩

/-- Witness for C8: a one-charging-EVSE location with a running rush-period
run, cancelled before one more scheduled successful plug-in. -/
theorem C8_cancel_scenario_witness :
    (LocationState.mk
        (ScenarioRun.mk ("rush_period") 10 6 2 1 [] ScenarioStatus.running)
        [sampleChargingEvse]).run.status = ScenarioStatus.running ∧
    ((scenarioSteps (cancelScenario (LocationState.mk
        (ScenarioRun.mk ("rush_period") 10 6 2 1 [] ScenarioStatus.running)
        [sampleChargingEvse])) [PlugInJob.mk 2 99 true]).run.status =
      ScenarioStatus.cancelled ∧
     (scenarioSteps (cancelScenario (LocationState.mk
        (ScenarioRun.mk ("rush_period") 10 6 2 1 [] ScenarioStatus.running)
        [sampleChargingEvse])) [PlugInJob.mk 2 99 true]).run.completed_pairs = 2 ∧
     (scenarioSteps (cancelScenario (LocationState.mk
        (ScenarioRun.mk ("rush_period") 10 6 2 1 [] ScenarioStatus.running)
        [sampleChargingEvse])) [PlugInJob.mk 2 99 true]).evses =
      [sampleChargingEvse]) := by
  have h := C8_cancel_scenario
    (LocationState.mk (ScenarioRun.mk ("rush_period") 10 6 2 1 [] ScenarioStatus.running)
      [sampleChargingEvse])
    [PlugInJob.mk 2 99 true] rfl
  exact ⟨rfl, h.2.1, h.2.2.1, h.2.2.2.1⟩

/-- Embedded from the InjectStatusPanel component: the ChargePointErrorCode
values valid for Faulted status (`FAULTED_ERROR_CODES`); NoError is
excluded. -/
def FAULTED_ERROR_CODES : List String :=
  ["ConnectorLockFailure", "EVCommunicationError", "GroundFailure",
   "HighTemperature", "InternalError", "LocalListConflict", "OtherError",
   "OverCurrentFailure", "OverVoltage", "PowerMeterFailure",
   "PowerSwitchFailure", "ReaderFailure", "ResetFailure", "UnderVoltage",
   "WeakSignal"]

/-- The status-injection payload posted by the panel. -/
structure InjectStatusRequest where
  connector_id : Nat
  status : String
  error_code : Option String
  info : Option String
  vendor_error_code : Option String
deriving DecidableEq, Repr

/-- Embedded from `handleSubmit` in the InjectStatusPanel component: with no
status selected, or a Faulted status without an error code, no request is
submitted (only an error toast is shown); otherwise the mutation is posted
with the fault fields (`error_code`, `info`, `vendor_error_code`) carried
only for a Faulted status, the optional text inputs mapped from the empty
string to an absent field. -/
def handleSubmit (selectedEvseId : Nat)
    (selectedStatus errorCode infoField vendorErrorCode : String) :
    Option InjectStatusRequest :=
  if selectedStatus = ("") then none
  else if selectedStatus = ("Faulted") ∧ errorCode = ("") then none
  else some
    { connector_id := selectedEvseId,
      status := selectedStatus,
      error_code := if selectedStatus = ("Faulted") then some errorCode else none,
      info :=
        if selectedStatus = ("Faulted") then
          (if infoField = ("") then none else some infoField)
        else none,
      vendor_error_code :=
        if selectedStatus = ("Faulted") then
          (if vendorErrorCode = ("") then none else some vendorErrorCode)
        else none }

/-- C10: in the inject-status interface, the error-code field is offered
only from the 15 enumerated ChargePointErrorCode values (a set excluding
NoError), so a reachable field value is empty or one of them; under that
invariant, a submission with Faulted status always carries an error code
from that set (submission is refused without one), a submission with a
non-Faulted status carries no error_code, info, or vendor_error_code
fields, and no request is submitted when no status is selected. -/
theorem C10_inject_status (evseId : Nat)
    (status errorCode infoField vendorErrorCode : String)
    (hec : errorCode = ("") ∨ errorCode ∈ FAULTED_ERROR_CODES) :
    FAULTED_ERROR_CODES.length = 15 ∧
    ("NoError") ∉ FAULTED_ERROR_CODES ∧
    handleSubmit evseId ("") errorCode infoField vendorErrorCode = none ∧
    (∀ r, handleSubmit evseId status errorCode infoField vendorErrorCode = some r →
      status = ("Faulted") →
      ∃ c, r.error_code = some c ∧ c ∈ FAULTED_ERROR_CODES) ∧
    (∀ r, handleSubmit evseId status errorCode infoField vendorErrorCode = some r →
      status ≠ ("Faulted") →
      r.error_code = none ∧ r.info = none ∧ r.vendor_error_code = none) := by
  refine ⟨by decide, by decide, by simp [handleSubmit], ?_, ?_⟩
  · intro r hr hs
    subst hs
    by_cases he : errorCode = ("")
    · subst he
      simp [handleSubmit] at hr
    · rcases hec with he2 | hmem
      · exact absurd he2 he
      · simp [handleSubmit, he] at hr
        refine ⟨errorCode, ?_, hmem⟩
        rw [← hr]
  · intro r hr hs
    by_cases h0 : status = ("")
    · subst h0
      simp [handleSubmit] at hr
    · simp [handleSubmit, h0, hs] at hr
      refine ⟨?_, ?_, ?_⟩ <;> rw [← hr]

/-- Witness for C10: a valid error code from the enumerated set, with the
no-status submission refused. -/
theorem C10_inject_status_witness :
    ((("GroundFailure") = ("") ∨ ("GroundFailure") ∈ FAULTED_ERROR_CODES)) ∧
    (FAULTED_ERROR_CODES.length = 15 ∧
     ("NoError") ∉ FAULTED_ERROR_CODES ∧
     handleSubmit 1 ("") ("GroundFailure") ("diag") ("E42") = none) := by
  have h := C10_inject_status 1 ("Faulted") ("GroundFailure") ("diag") ("E42")
    (Or.inr (by decide))
  exact ⟨Or.inr (by decide), h.1, h.2.1, h.2.2.1⟩

end OcppSim
